import Mathlib

/-!
Shallow embedding of the CityGuardian request handlers.

The definitions below translate, handler by handler, the TypeScript route
code of the repository:

* `register` embeds `POST` of `src/app/api/auth/register/route.ts`
  together with the persistence behaviour of `src/models/User.ts`:
  the strict schema keeps only its own paths on a new document,
  `save()` runs the required path and enum validation first, and only
  a document that passes it reaches the pre save hook that hashes the
  `password` path and is stored.  The route builds its document with
  `phone`, `address` and `city`, which the schema does not define,
  and never sets the required `mobile` path, so its save step always
  fails and the handler answers 500.
* `authorize` embeds the `authorize` callback of the credentials
  provider in `src/app/api/auth/[...nextauth]/route.ts`, with
  `comparePassword` from `src/models/User.ts`.
* `postUpload` and `putUpload` embed `POST` and `PUT` of
  `src/app/api/upload/route.ts`.
* `submit` is modelled from the specification, because the
  `POST /api/complaints` handler itself is not part of the repository
  snapshot (only its client caller and test scripts are).

Persistence is modelled as explicit state passing over lists of stored
documents.  `bcrypt` hashing is modelled by an arbitrary function
`hash : String → String` taken as a parameter; `bcrypt.compare c h` is
modelled as the test `hash c = h`.  JavaScript strings are modelled as
Lean strings; the ASCII restricted behaviour of `toLowerCase`, `trim`,
the `\s` class of the email regular expression and `.length` is spelled
out below (all inputs relevant to the claims are ASCII).
-/

namespace CityGuardian

/-- JavaScript whitespace test restricted to the ASCII range, as matched
by the `\s` class of the email regular expression and removed by
`String.prototype.trim`. -/
def jsIsWs (c : Char) : Bool :=
  c = ' ' || c = '\t' || c = '\n' || c = '\r' || c = '\x0b' || c = '\x0c'

/-- The table of ASCII upper and lower case letter pairs. -/
def lowerPairs : List (Char × Char) :=
  [('A', 'a'), ('B', 'b'), ('C', 'c'), ('D', 'd'), ('E', 'e'), ('F', 'f'),
    ('G', 'g'), ('H', 'h'), ('I', 'i'), ('J', 'j'), ('K', 'k'), ('L', 'l'),
    ('M', 'm'), ('N', 'n'), ('O', 'o'), ('P', 'p'), ('Q', 'q'), ('R', 'r'),
    ('S', 's'), ('T', 't'), ('U', 'u'), ('V', 'v'), ('W', 'w'), ('X', 'x'),
    ('Y', 'y'), ('Z', 'z')]

/-- ASCII case lowering of one character: the behaviour of
`String.prototype.toLowerCase` (and of the `lowercase: true` schema
setter of `src/models/User.ts`) on ASCII input. -/
def jsCharLower (c : Char) : Char :=
  ((lowerPairs.find? (fun p => p.fst = c)).map Prod.snd).getD c

/-- `String.prototype.toLowerCase` on ASCII input. -/
def jsToLower (s : String) : String :=
  ⟨s.toList.map jsCharLower⟩

/-- `String.prototype.trim`: removes leading and trailing whitespace. -/
def jsTrim (s : String) : String :=
  ⟨((s.toList.dropWhile jsIsWs).reverse.dropWhile jsIsWs).reverse⟩

/-- `String.prototype.length`.  On the ASCII inputs of this development
the UTF-16 unit count coincides with the character count. -/
def jsLength (s : String) : Nat :=
  s.toList.length

/-- One character of the `[^\s@]` class of the registration email
regular expression. -/
def emailChar (c : Char) : Bool :=
  !(jsIsWs c) && !(c = '@')

/-- Test of the anchored pattern `[^\s@]+@[^\s@]+\.[^\s@]+` used by the
register route to validate emails.  The string must decompose as a
nonempty run of non whitespace non `@` characters, one `@`, and a rest
that again holds no whitespace and no `@` and has a dot at an interior
position (at least one character on each side of it). -/
def isEmailFormat (s : String) : Bool :=
  let cs := s.toList
  let l := cs.takeWhile (fun c => !(c = '@'))
  let rest := cs.dropWhile (fun c => !(c = '@'))
  !l.isEmpty && l.all (fun c => !(jsIsWs c)) && !rest.isEmpty &&
    (rest.drop 1).all emailChar && ((rest.drop 2).dropLast.contains '.')

/-- A persisted user document with exactly the string paths the schema
of `src/models/User.ts` defines: name, email, password, mobile, role
and createdAt (avatar and the complaints references play no part in
the claims).  The password path holds the hash produced by the pre
save hook. -/
structure StoredUser where
  id : String
  name : String
  email : String
  password : String
  mobile : String
  role : String
  createdAt : Nat
  deriving Repr, DecidableEq

/-- A user document built but not yet saved: the schema paths a caller
may set.  `mobile` is optional because the register route never sets
it.  Under the strict schema, values supplied for paths the schema
does not define (phone, address, city, isActive, joinedAt) are
dropped at construction and do not appear here. -/
structure UserDoc where
  name : String
  email : String
  password : String
  mobile : Option String
  role : String
  deriving Repr, DecidableEq

/-- The JSON body of `POST /api/auth/register`.  A missing `role` key is
`none`; JavaScript falsiness of the string fields is the test against
the empty string. -/
structure RegisterRequest where
  name : String
  email : String
  password : String
  phone : String
  address : String
  city : String
  role : Option String
  deriving Repr, DecidableEq

/-- Outcome of the register route: 400 with a message, 409, 500 from
the catch block, or 201 with the response user object (a list of JSON
keys, each with its value when the document defines one and none for a
path the schema dropped). -/
inductive RegisterResult where
  | badRequest (msg : String)
  | conflict (msg : String)
  | serverError (msg : String)
  | created (resp : List (String × Option String))
  deriving Repr, DecidableEq

/-- HTTP status attached to each register outcome by the route. -/
def statusCode : RegisterResult → Nat
  | .badRequest _ => 400
  | .conflict _ => 409
  | .serverError _ => 500
  | .created _ => 201

/-- The response payload of a 201 outcome, empty otherwise. -/
def respOf : RegisterResult → List (String × Option String)
  | .created resp => resp
  | _ => []

/-- The guard `!name || !email || !password || !phone || !address ||
!city` of the register route. -/
def requiredMissing (req : RegisterRequest) : Bool :=
  req.name = "" || req.email = "" || req.password = "" ||
    req.phone = "" || req.address = "" || req.city = ""

/-- The `validRoles` list of the register route. -/
def validRoles : List String :=
  ["citizen", "employee", "admin"]

/-- The guard `role && !validRoles.includes(role)` of the register
route: a present and truthy (nonempty) role outside the list. -/
def roleInvalid : Option String → Bool
  | some r => !(r = "") && !(validRoles.contains r)
  | none => false

/-- The expression `role || 'citizen'` of the register route. -/
def roleOrDefault : Option String → String
  | some r => if r = "" then "citizen" else r
  | none => "citizen"

/-- `User.findOne` on the email path.  Callers pass the value the query
carries for the path (the register route lowercases it explicitly). -/
def findOneByEmail (db : List StoredUser) (e : String) : Option StoredUser :=
  db.find? (fun u => u.email = e)

/-- Whether one character list starts with another, character by
character. -/
def matchesFront : List Char → List Char → Bool
  | [], _ => true
  | _ :: _, [] => false
  | a :: as, b :: bs => a = b && matchesFront as bs

/-- Whether a character list occurs somewhere inside another. -/
def hasSeq (needle : List Char) : List Char → Bool
  | [] => needle.isEmpty
  | b :: bs => matchesFront needle (b :: bs) || hasSeq needle bs

/-- `String.prototype.includes`, used by the catch block of the
register route on the error message. -/
def includesStr (needle hay : String) : Bool :=
  hasSeq needle.toList hay.toList

/-- The document `new User({...})` of the register route builds: the
strict schema keeps only its own paths, so the values the route
supplies for phone, address, city, isActive and joinedAt are dropped
and the required mobile path is never set.  The route hashes the
password with `bcrypt.hash` before assigning it; the email value is
lowercased and trimmed by the route itself (the schema lowercase
setter is an identity on it). -/
def routeDoc (hash : String → String) (req : RegisterRequest) : UserDoc :=
  { name := jsTrim req.name
    email := jsTrim (jsToLower req.email)
    password := hash req.password
    mobile := none
    role := roleOrDefault req.role }

/-- `document.save()` against the schema of `src/models/User.ts`:
validation of the required string paths (name, email, password,
mobile; a required string path fails on a missing value and on the
empty string) and of the role enumeration runs first; only then does
the pre save hook hash the password path, and the document is stored.
Mongoose aggregates the failing paths into one ValidationError; the
model reports the first, which the caller only tests for the substring
duplicate key, so the choice is not observable.  On success the saved
document and the new collection are returned. -/
def saveDoc (hash : String → String) (id : String) (now : Nat)
    (db : List StoredUser) (doc : UserDoc) :
    Except String (StoredUser × List StoredUser) :=
  if doc.name = "" then
    .error "User validation failed: name: Path name is required."
  else if doc.email = "" then
    .error "User validation failed: email: Path email is required."
  else if doc.password = "" then
    .error "User validation failed: password: Path password is required."
  else
    match doc.mobile with
    | none => .error "User validation failed: mobile: Path mobile is required."
    | some m =>
        if m = "" then
          .error "User validation failed: mobile: Path mobile is required."
        else if !(validRoles.contains doc.role) then
          .error "User validation failed: role: invalid enum value."
        else
          let u : StoredUser :=
            { id := id, name := doc.name, email := doc.email,
              password := hash doc.password, mobile := m, role := doc.role,
              createdAt := now }
          .ok (u, db ++ [u])

/-- `User.create({name, email, password, mobile, role})` as the seed
and test scripts call it (`src/unnamed/part_001`, `part_004`,
`src/scripts/complete-setup-test.ts`): the lowercase schema setter
applies to the email on assignment, the raw password is handed to the
document and `save()` validates and hashes it once through the pre
save hook.  This is how user records enter the collection in the
repository. -/
def createUser (hash : String → String) (id : String) (now : Nat)
    (db : List StoredUser)
    (name email password mobile role : String) :
    Except String (StoredUser × List StoredUser) :=
  saveDoc hash id now db
    { name := name, email := jsToLower email, password := password,
      mobile := some mobile, role := role }

/-- The `userResponse` object of the register route (lines 77 to 86):
the keys returned to the caller on 201.  The route reads user.phone,
user.address, user.city and user.joinedAt, none of which the schema
defines, so those values are undefined (none). -/
def userResponse (u : StoredUser) : List (String × Option String) :=
  [("id", some u.id), ("name", some u.name), ("email", some u.email),
    ("phone", none), ("address", none), ("city", none),
    ("role", some u.role), ("joinedAt", none)]

/-- `POST` of `src/app/api/auth/register/route.ts`.  `hash` models
`bcrypt.hash`, `id` the database assigned document id, `now` the
clock.  After its own validation and the duplicate lookup the route
builds `routeDoc` and awaits `user.save()`; a save error reaches the
catch block, which answers 409 when the message holds the substring
duplicate key and 500 otherwise.  Returns the HTTP outcome and the
user collection after the request. -/
def register (hash : String → String) (id : String) (now : Nat)
    (db : List StoredUser) (req : RegisterRequest) :
    RegisterResult × List StoredUser :=
  if requiredMissing req then
    (.badRequest "All fields are required", db)
  else if !(isEmailFormat req.email) then
    (.badRequest "Invalid email format", db)
  else if jsLength req.password < 6 then
    (.badRequest "Password must be at least 6 characters long", db)
  else if roleInvalid req.role then
    (.badRequest "Invalid role specified", db)
  else
    match findOneByEmail db (jsToLower req.email) with
    | some _ => (.conflict "User with this email already exists", db)
    | none =>
        match saveDoc hash id now db (routeDoc hash req) with
        | .ok (u, db2) => (.created (userResponse u), db2)
        | .error msg =>
            if includesStr "duplicate key" msg then
              (.conflict "User with this email already exists", db)
            else
              (.serverError "Internal server error during registration", db)

/-- `comparePassword` of `src/models/User.ts`: `bcrypt.compare` of the
candidate against the stored hash, modelled as recomputing the hash. -/
def comparePassword (hash : String → String)
    (candidate stored : String) : Bool :=
  hash candidate = stored

/-- Outcome of the credentials `authorize` callback: the returned user
object, or the message of the thrown error. -/
inductive AuthResult where
  | ok (id email name role : String)
  | err (msg : String)
  deriving Repr, DecidableEq

/-- The `authorize` callback of
`src/app/api/auth/[...nextauth]/route.ts`.  The lookup
`User.findOne({email}).select(+password)` fetches the otherwise
excluded password path; the `lowercase: true` setter of the email path
applies to the query value, modelled by `jsToLower`. -/
def authorize (hash : String → String) (db : List StoredUser)
    (email password : String) : AuthResult :=
  if email = "" || password = "" then
    .err "Invalid credentials"
  else
    match findOneByEmail db (jsToLower email) with
    | none => .err "No user found"
    | some u =>
        if comparePassword hash password u.password then
          .ok u.id u.email u.name u.role
        else
          .err "Invalid password"

/-- One uploaded file as seen by `POST /api/upload`: name, declared
MIME type and byte size. -/
structure UploadFile where
  name : String
  type : String
  size : Nat
  deriving Repr, DecidableEq

/-- A media handle as returned by the upload route (Cloudinary result
on the `POST` path, base64 record on the `PUT` path). -/
structure MediaHandle where
  url : String
  publicId : String
  width : Option Nat
  height : Option Nat
  format : Option String
  bytes : Option Nat
  deriving Repr, DecidableEq

/-- Outcome of the upload handlers: 401, 400 with a message, or 200
with the list of media handles. -/
inductive UploadResult where
  | unauthorized
  | badRequest (msg : String)
  | ok (images : List MediaHandle)
  deriving Repr, DecidableEq

/-- The handles carried by a 200 outcome; no handle otherwise. -/
def handlesOf : UploadResult → List MediaHandle
  | .ok hs => hs
  | _ => []

/-- Whether the outcome is the 200 success case. -/
def isOkUpload : UploadResult → Bool
  | .ok _ => true
  | _ => false

/-- Whether the outcome is a 400 rejection. -/
def isBadRequest : UploadResult → Bool
  | .badRequest _ => true
  | _ => false

/-- The `allowedTypes` list of the upload route. -/
def allowedTypes : List String :=
  ["image/jpeg", "image/jpg", "image/png", "image/webp"]

/-- The `maxSize` cap of the upload route: 10 MB. -/
def maxSize : Nat := 10 * 1024 * 1024

/-- The validation loop of `POST /api/upload`: for each file in order,
first the MIME type against the allow list, then the size against the
cap; the first failure yields the 400 message, otherwise none. -/
def checkFiles : List UploadFile → Option String
  | [] => none
  | f :: fs =>
      if !(allowedTypes.contains f.type) then
        some ("Invalid file type: " ++ f.type ++
          ". Only JPEG, PNG, and WebP are allowed.")
      else if maxSize < f.size then
        some ("File too large: " ++ f.name ++ ". Maximum size is 10MB.")
      else checkFiles fs

/-- An authenticated session as produced by the credentials flow. -/
structure Session where
  userId : String
  role : String
  email : String
  name : String
  deriving Repr, DecidableEq

/-- `POST` of `src/app/api/upload/route.ts`.  `cloud` models the
Cloudinary upload of one file (only reached when every file passed
validation); `sess` is the server session, `none` when absent. -/
def postUpload (cloud : UploadFile → MediaHandle) (sess : Option Session)
    (files : List UploadFile) : UploadResult :=
  match sess with
  | none => .unauthorized
  | some _ =>
      if files.isEmpty then .badRequest "No files uploaded"
      else
        match checkFiles files with
        | some msg => .badRequest msg
        | none => .ok (files.map cloud)

/-- The `images.map((base64Image, index) => ...)` body of
`PUT /api/upload`: each input string is stored verbatim as the url,
with a fabricated public id from the clock and the index, no
dimensions, format `base64` and the string length as byte count. -/
def processImages (now : Nat) : Nat → List String → List MediaHandle
  | _, [] => []
  | i, b64 :: rest =>
      { url := b64
        publicId := "complaint_" ++ toString now ++ "_" ++ toString i
        width := none
        height := none
        format := some "base64"
        bytes := some (jsLength b64) } :: processImages now (i + 1) rest

/-- `PUT` of `src/app/api/upload/route.ts`: the base64 fallback.
`images` is `none` when the body carries no array (the
`!images || !Array.isArray(images)` guard); an array, empty or not, of
any strings is accepted with no type or size validation. -/
def putUpload (now : Nat) (sess : Option Session)
    (images : Option (List String)) : UploadResult :=
  match sess with
  | none => .unauthorized
  | some _ =>
      match images with
      | none => .badRequest "Invalid images data"
      | some imgs => .ok (processImages now 0 imgs)

/-- The complaint draft a client submits: the fields sent by
`src/components/issue-form.tsx`, plus possibly client supplied author
and status values that a hostile payload could carry. -/
structure ComplaintDraft where
  title : String
  category : String
  description : String
  address : String
  mobile : String
  priority : Option String
  images : List MediaHandle
  author : Option String
  status : Option String
  deriving Repr, DecidableEq

/-- A persisted complaint document. -/
structure Complaint where
  title : String
  category : String
  description : String
  address : String
  mobile : String
  priority : String
  images : List MediaHandle
  status : String
  author : String
  deriving Repr, DecidableEq

/-- Outcome of the complaint submission: 401, 400, or the persisted
complaint. -/
inductive SubmitResult where
  | unauthenticated
  | invalid (msg : String)
  | ok (c : Complaint)
  deriving Repr, DecidableEq

/-- Modelled from the spec: the `POST /api/complaints` handler is not in
the repository snapshot (only its client caller
`src/components/issue-form.tsx` and test scripts are), so the Complaint
Workflow `submit` operation follows section 4.5 of the specification:
it requires an active session, requires nonempty title, category,
description, address and contact mobile, and persists the complaint
with `author = session.userId`, `status = "pending"` and default
`priority = "medium"` unless overridden, ignoring any client supplied
author or status value. -/
def submit (sess : Option Session) (draft : ComplaintDraft)
    (db : List Complaint) : SubmitResult × List Complaint :=
  match sess with
  | none => (.unauthenticated, db)
  | some s =>
      if draft.title = "" || draft.category = "" || draft.description = "" ||
          draft.address = "" || draft.mobile = "" then
        (.invalid "Missing required fields", db)
      else
        let c : Complaint :=
          { title := draft.title
            category := draft.category
            description := draft.description
            address := draft.address
            mobile := draft.mobile
            priority := (draft.priority.getD "medium")
            images := draft.images
            status := "pending"
            author := s.userId }
        (.ok c, db ++ [c])

/-! ### Helper lemmas -/

theorem emailFormat_ne_empty (e : String) (h : isEmailFormat e = true) :
    e ≠ "" := by
  intro he
  rw [he] at h
  simp [isEmailFormat] at h

theorem string_ne_empty_of_length (s : String) (h : 0 < jsLength s) :
    s ≠ "" := by
  intro he
  rw [he] at h
  simp [jsLength] at h

/-- Saving the document the register route builds always fails
validation (its mobile path is never set, and a field emptied by
trimming fails even earlier), and the resulting message never holds
the substring duplicate key. -/
theorem saveDoc_routeDoc_error (hash : String → String) (id : String)
    (now : Nat) (db : List StoredUser) (req : RegisterRequest) :
    ∃ msg, saveDoc hash id now db (routeDoc hash req) = .error msg ∧
      includesStr "duplicate key" msg = false := by
  unfold saveDoc routeDoc
  by_cases h1 : jsTrim req.name = ""
  · exact ⟨"User validation failed: name: Path name is required.",
      by simp [h1], by decide⟩
  · by_cases h2 : jsTrim (jsToLower req.email) = ""
    · exact ⟨"User validation failed: email: Path email is required.",
        by simp [h1, h2], by decide⟩
    · by_cases h3 : hash req.password = ""
      · exact ⟨"User validation failed: password: Path password is required.",
          by simp [h1, h2, h3], by decide⟩
      · exact ⟨"User validation failed: mobile: Path mobile is required.",
          by simp [h1, h2, h3], by decide⟩

/-- Any register request that passes the route validation and the
duplicate lookup ends in the catch block with the 500 answer and an
unchanged collection: the save step always fails on the required
mobile path the route never sets. -/
theorem register_valid_path_serverError (hash : String → String)
    (id : String) (now : Nat) (db : List StoredUser)
    (req : RegisterRequest)
    (hreq : requiredMissing req = false)
    (hfmt : isEmailFormat req.email = true)
    (hpw : ¬ jsLength req.password < 6)
    (hrole : roleInvalid req.role = false)
    (hnone : findOneByEmail db (jsToLower req.email) = none) :
    (register hash id now db req).fst =
      .serverError "Internal server error during registration" ∧
    (register hash id now db req).snd = db := by
  obtain ⟨msg, hsd, hdup⟩ := saveDoc_routeDoc_error hash id now db req
  unfold register
  simp [hreq, hfmt, hpw, hrole, hnone, hsd, hdup]

/-- The response payload of any register outcome is either empty or
the `userResponse` object of some stored user. -/
theorem respOf_register (hash : String → String) (id : String)
    (now : Nat) (db : List StoredUser) (req : RegisterRequest) :
    respOf (register hash id now db req).fst = [] ∨
    ∃ u, respOf (register hash id now db req).fst = userResponse u := by
  unfold register
  by_cases h1 : requiredMissing req = true
  · left; simp [h1, respOf]
  · rw [Bool.not_eq_true] at h1
    by_cases h2 : isEmailFormat req.email = true
    · by_cases h3 : jsLength req.password < 6
      · left; simp [h1, h2, h3, respOf]
      · by_cases h4 : roleInvalid req.role = true
        · left; simp [h1, h2, h3, h4, respOf]
        · rw [Bool.not_eq_true] at h4
          rcases hf : findOneByEmail db (jsToLower req.email) with _ | v
          · rcases hs : saveDoc hash id now db (routeDoc hash req) with
              msg | ⟨u, db2⟩
            · by_cases hdup : includesStr "duplicate key" msg = true
              · left; simp [h1, h2, h3, h4, hf, hs, hdup, respOf]
              · rw [Bool.not_eq_true] at hdup
                left; simp [h1, h2, h3, h4, hf, hs, hdup, respOf]
            · right
              exact ⟨u, by simp [h1, h2, h3, h4, hf, hs, respOf]⟩
          · left; simp [h1, h2, h3, h4, hf, respOf]
    · rw [Bool.not_eq_true] at h2
      left; simp [h1, h2, respOf]

theorem checkFiles_some_of_oversize :
    ∀ files : List UploadFile, (∃ f ∈ files, maxSize < f.size) →
      ∃ m, checkFiles files = some m := by
  intro files
  induction files with
  | nil => intro h; simp at h
  | cons f fs ih =>
      intro h
      unfold checkFiles
      by_cases ht : f.type ∈ allowedTypes
      · by_cases hs : maxSize < f.size
        · exact ⟨"File too large: " ++ f.name ++ ". Maximum size is 10MB.",
            by simp [ht, hs]⟩
        · obtain ⟨g, hg, hgs⟩ := h
          rcases List.mem_cons.mp hg with rfl | hg
          · exact absurd hgs hs
          · obtain ⟨m, hm⟩ := ih ⟨g, hg, hgs⟩
            exact ⟨m, by simp [ht, hs, hm]⟩
      · exact ⟨"Invalid file type: " ++ f.type ++
            ". Only JPEG, PNG, and WebP are allowed.", by simp [ht]⟩

theorem processImages_length (now : Nat) :
    ∀ (j : Nat) (imgs : List String),
      (processImages now j imgs).length = imgs.length := by
  intro j imgs
  induction imgs generalizing j with
  | nil => rfl
  | cons b rest ih => simpa [processImages] using ih (j + 1)

theorem processImages_get?_url (now : Nat) :
    ∀ (imgs : List String) (i j : Nat),
      ((processImages now j imgs).get? i).map MediaHandle.url =
        imgs.get? i := by
  intro imgs
  induction imgs with
  | nil => intro i j; rfl
  | cons b rest ih =>
      intro i j
      cases i with
      | zero => rfl
      | succ i => exact ih i (j + 1)

theorem processImages_get?_format (now : Nat) :
    ∀ (imgs : List String) (i j : Nat), i < imgs.length →
      ((processImages now j imgs).get? i).map MediaHandle.format =
        some (some "base64") := by
  intro imgs
  induction imgs with
  | nil => intro i j h; simp at h
  | cons b rest ih =>
      intro i j h
      cases i with
      | zero => rfl
      | succ i => exact ih i (j + 1) (by simpa using h)

/-! ### Concrete fixtures used by the witnesses -/

/-- A deterministic stand in for `bcrypt.hash`. -/
def exHash : String → String := fun s => "#" ++ s

/-- A deterministic stand in for the Cloudinary upload of one file. -/
def exCloud : UploadFile → MediaHandle := fun f =>
  { url := "https://cdn.example/" ++ f.name, publicId := f.name,
    width := none, height := none, format := none, bytes := some f.size }

/-- A sample authenticated session. -/
def exSession : Session :=
  { userId := "u1", role := "citizen", email := "alice@x.com",
    name := "Alice" }

/-- A valid registration body with no role field. -/
def exReq : RegisterRequest :=
  { name := "Alice", email := "A@X.com", password := "secret1",
    phone := "555-1000", address := "1 Main St", city := "Springfield",
    role := none }

/-- The user the seed script of `src/unnamed/part_001` creates through
`User.create` (raw password hashed once by the pre save hook). -/
def exSeedUser : StoredUser :=
  { id := "7", name := "Test User", email := "test@example.com",
    password := exHash "testpassword123", mobile := "9999999999",
    role := "citizen", createdAt := 3 }

/-- A valid registration body whose email equals the seeded user email
up to ASCII case. -/
def exReqDup : RegisterRequest :=
  { exReq with name := "Alice Again", email := "TEST@example.com" }

/-- A registration body whose password is shorter than 6 characters. -/
def exReqShortPw : RegisterRequest :=
  { exReq with password := "abc" }

/-- A registration body whose role key holds the empty string. -/
def exReqEmptyRole : RegisterRequest :=
  { exReq with role := some "" }

/-- A registration body whose role is a nonempty string outside the
valid role list. -/
def exReqBadRole : RegisterRequest :=
  { exReq with role := some "superhero" }

/-- An upload batch holding one file just above the 10 MB cap. -/
def exFiles : List UploadFile :=
  [{ name := "big.png", type := "image/png", size := 10485761 }]

/-- A base64 fallback batch: arbitrary strings, no image type, one of
them longer than any cap. -/
def exImgs : List String :=
  ["not-an-image", "data:text/plain;base64,AAAA"]

/-! ### Claim theorems -/

/-- C3: for every upload batch of N files (N at least 1, authenticated
session) in which some file K exceeds the 10 MB size cap, the `POST`
upload handler rejects the entire batch with a 400 error and returns
zero media handles, including for the valid files of the batch. -/
theorem postUpload_oversize_rejects_batch (cloud : UploadFile → MediaHandle)
    (s : Session) (files : List UploadFile) (k : Nat) (hk : k < files.length)
    (hsize : maxSize < (files.get ⟨k, hk⟩).size) :
    isBadRequest (postUpload cloud (some s) files) = true ∧
    handlesOf (postUpload cloud (some s) files) = [] := by
  obtain ⟨m, hm⟩ := checkFiles_some_of_oversize files
    ⟨files.get ⟨k, hk⟩, List.get_mem files k hk, hsize⟩
  have hne : files.isEmpty = false := by
    cases files with
    | nil => simp at hk
    | cons f fs => rfl
  unfold postUpload
  simp [hne, hm, isBadRequest, handlesOf]

theorem postUpload_oversize_rejects_batch_witness :
    isBadRequest (postUpload exCloud (some exSession) exFiles) = true ∧
    handlesOf (postUpload exCloud (some exSession) exFiles) = [] :=
  postUpload_oversize_rejects_batch exCloud exSession exFiles 0
    (by decide) (by decide)

/-- C5: for every authenticated session and every array of strings, the
`PUT` upload fallback accepts the batch and returns one media handle
per input string; no MIME type or size validation is applied to any
element (the statement quantifies over arbitrary strings, including
ones the `POST` path would reject). -/
theorem putUpload_accepts_all_batches (now : Nat) (s : Session)
    (imgs : List String) :
    isOkUpload (putUpload now (some s) (some imgs)) = true ∧
    (handlesOf (putUpload now (some s) (some imgs))).length =
      imgs.length := by
  unfold putUpload
  exact ⟨rfl, by simpa [handlesOf] using processImages_length now 0 imgs⟩

/-- C9: for every authenticated session and every input array of N
strings, the `PUT` fallback returns exactly N handles in input order,
handle i carrying the i-th input string verbatim as its url and the
format `base64`; the empty array succeeds with an empty handle list,
while the `POST` path rejects an empty batch with 400. -/
theorem putUpload_preserves_inputs (cloud : UploadFile → MediaHandle)
    (now : Nat) (s : Session) (imgs : List String) :
    isOkUpload (putUpload now (some s) (some imgs)) = true ∧
    (handlesOf (putUpload now (some s) (some imgs))).length =
      imgs.length ∧
    (∀ i, ((handlesOf (putUpload now (some s) (some imgs))).get? i).map
      MediaHandle.url = imgs.get? i) ∧
    (∀ i, i < imgs.length →
      ((handlesOf (putUpload now (some s) (some imgs))).get? i).map
        MediaHandle.format = some (some "base64")) ∧
    putUpload now (some s) (some ([] : List String)) = .ok [] ∧
    postUpload cloud (some s) [] = .badRequest "No files uploaded" := by
  refine ⟨rfl, ?_, ?_, ?_, rfl, rfl⟩
  · simpa [putUpload, handlesOf] using processImages_length now 0 imgs
  · intro i
    simpa [putUpload, handlesOf] using processImages_get?_url now imgs i 0
  · intro i hi
    simpa [putUpload, handlesOf] using
      processImages_get?_format now imgs i 0 hi

theorem putUpload_preserves_inputs_witness :
    ((handlesOf (putUpload 5 (some exSession) (some exImgs))).get? 1).map
      MediaHandle.url = exImgs.get? 1 ∧
    ((handlesOf (putUpload 5 (some exSession) (some exImgs))).get? 1).map
      MediaHandle.format = some (some "base64") :=
  ⟨(putUpload_preserves_inputs exCloud 5 exSession exImgs).2.2.1 1,
    (putUpload_preserves_inputs exCloud 5 exSession exImgs).2.2.2.1 1
      (by decide)⟩

/-- C8: for every registration request whose password has length
below 6, registration fails with a 400 validation error and no user is
created, regardless of the values of all other fields. -/
theorem register_short_password_rejected (hash : String → String)
    (id : String) (now : Nat) (db : List StoredUser) (req : RegisterRequest)
    (h : jsLength req.password < 6) :
    statusCode (register hash id now db req).fst = 400 ∧
    (register hash id now db req).snd = db := by
  unfold register
  by_cases h1 : requiredMissing req = true
  · simp [h1, statusCode]
  · rw [Bool.not_eq_true] at h1
    by_cases h2 : isEmailFormat req.email = true
    · simp [h1, h2, h, statusCode]
    · rw [Bool.not_eq_true] at h2
      simp [h1, h2, statusCode]

theorem register_short_password_rejected_witness :
    jsLength exReqShortPw.password < 6 ∧
    statusCode (register exHash "1" 0 [] exReqShortPw).fst = 400 ∧
    (register exHash "1" 0 [] exReqShortPw).snd = [] :=
  ⟨by decide,
    register_short_password_rejected exHash "1" 0 [] exReqShortPw (by decide)⟩

/-- C4: the user object the register route returns never carries a
password or passwordHash key, on any path: every non 201 outcome has
an empty payload and the 201 payload is the `userResponse` object of
route lines 77 to 86, whose key list is fixed.  In particular the
claimed invariant holds for every successful registration request. -/
theorem register_response_no_password (hash : String → String)
    (id : String) (now : Nat) (db : List StoredUser)
    (req : RegisterRequest) :
    "password" ∉ (respOf (register hash id now db req).fst).map Prod.fst ∧
    "passwordHash" ∉
      (respOf (register hash id now db req).fst).map Prod.fst ∧
    ∀ u : StoredUser,
      "password" ∉ (userResponse u).map Prod.fst ∧
      "passwordHash" ∉ (userResponse u).map Prod.fst := by
  have huser : ∀ u : StoredUser,
      "password" ∉ (userResponse u).map Prod.fst ∧
      "passwordHash" ∉ (userResponse u).map Prod.fst := by
    intro u
    constructor <;> simp [userResponse]
  refine ⟨?_, ?_, huser⟩
  · obtain h | ⟨u, h⟩ := respOf_register hash id now db req
    · rw [h]; simp
    · rw [h]; exact (huser u).1
  · obtain h | ⟨u, h⟩ := respOf_register hash id now db req
    · rw [h]; simp
    · rw [h]; exact (huser u).2

theorem register_response_no_password_witness :
    "password" ∉ (respOf (register exHash "1" 0 [] exReq).fst).map Prod.fst ∧
    "passwordHash" ∉
      (respOf (register exHash "1" 0 [] exReq).fst).map Prod.fst :=
  ⟨(register_response_no_password exHash "1" 0 [] exReq).1,
    (register_response_no_password exHash "1" 0 [] exReq).2.1⟩

/-- C2: for every already registered email (a user with that email,
stored lowercase, exists in the collection), a second registration
whose email equals it up to ASCII case (all other fields valid) fails
with 409 DuplicateEmail and creates no new user record.  The duplicate
lookup runs before the save step, so the outcome does not depend on
the broken persistence path of the route; the prior user enters the
collection through `createUser`, the way the repository scripts seed
it. -/
theorem register_duplicate_email_conflict (hash : String → String)
    (id : String) (now : Nat) (db : List StoredUser)
    (req : RegisterRequest) (u : StoredUser) (e0 : String)
    (hu : u ∈ db) (hustored : u.email = jsToLower e0)
    (hemail : jsToLower req.email = jsToLower e0)
    (hreq : requiredMissing req = false)
    (hfmt : isEmailFormat req.email = true)
    (hpw : ¬ jsLength req.password < 6)
    (hrole : roleInvalid req.role = false) :
    (register hash id now db req).fst =
      .conflict "User with this email already exists" ∧
    (register hash id now db req).snd = db := by
  rcases hf : findOneByEmail db (jsToLower req.email) with _ | v
  · exfalso
    unfold findOneByEmail at hf
    have := List.find?_eq_none.mp hf u hu
    apply this
    simp [hustored, hemail]
  · unfold register
    simp [hreq, hfmt, hpw, hrole, hf]

theorem register_duplicate_email_conflict_witness :
    createUser exHash "7" 3 [] "Test User" "test@example.com"
      "testpassword123" "9999999999" "citizen" =
      .ok (exSeedUser, [exSeedUser]) ∧
    (register exHash "8" 4 [exSeedUser] exReqDup).fst =
      .conflict "User with this email already exists" ∧
    (register exHash "8" 4 [exSeedUser] exReqDup).snd = [exSeedUser] :=
  ⟨rfl,
    register_duplicate_email_conflict exHash "8" 4 [exSeedUser] exReqDup
      exSeedUser "test@example.com" (by decide) (by decide) (by decide)
      (by decide) (by decide) (by decide) (by decide)⟩

/-- C6: authenticating a stored user with a wrong password fails with
the message Invalid password, a nonexistent email fails with the
message No user found, and the two failure outcomes are distinct, so
the caller can tell them apart. -/
theorem authorize_distinct_failures (hash : String → String)
    (db : List StoredUser) (u : StoredUser) (e1 pw1 e2 pw2 : String)
    (he1 : e1 ≠ "") (hpw1 : pw1 ≠ "")
    (hu : findOneByEmail db (jsToLower e1) = some u)
    (hwrong : hash pw1 ≠ u.password)
    (he2 : e2 ≠ "") (hpw2 : pw2 ≠ "")
    (hnone : findOneByEmail db (jsToLower e2) = none) :
    authorize hash db e1 pw1 = .err "Invalid password" ∧
    authorize hash db e2 pw2 = .err "No user found" ∧
    ("Invalid password" : String) ≠ "No user found" := by
  refine ⟨?_, ?_, by decide⟩
  · unfold authorize
    simp [he1, hpw1, hu, comparePassword, hwrong]
  · unfold authorize
    simp [he2, hpw2, hnone]

theorem authorize_distinct_failures_witness :
    authorize exHash [exSeedUser] "test@example.com" "wrong" =
      .err "Invalid password" ∧
    authorize exHash [exSeedUser] "bob@x.com" "password123" =
      .err "No user found" :=
  ⟨(authorize_distinct_failures exHash [exSeedUser] exSeedUser
      "test@example.com" "wrong" "bob@x.com" "password123" (by decide)
      (by decide) (by decide) (by decide) (by decide) (by decide)
      (by decide)).1,
    (authorize_distinct_failures exHash [exSeedUser] exSeedUser
      "test@example.com" "wrong" "bob@x.com" "password123" (by decide)
      (by decide) (by decide) (by decide) (by decide) (by decide)
      (by decide)).2.1⟩

/-- C7 (divergence witness): no user registered through the route can
authenticate, because no user is ever stored by it: for any request
that passes the route validation, `user.save()` fails the required
mobile validation of the schema (the route supplies phone instead of
mobile), the handler answers 500 with the collection unchanged, and a
subsequent authenticate with the just registered email and password
reports No user found. -/
theorem register_then_authenticate_fails (hash : String → String)
    (id : String) (now : Nat) (req : RegisterRequest)
    (hreq : requiredMissing req = false)
    (hfmt : isEmailFormat req.email = true)
    (hpw : ¬ jsLength req.password < 6)
    (hrole : roleInvalid req.role = false) :
    (register hash id now [] req).fst =
      .serverError "Internal server error during registration" ∧
    (register hash id now [] req).snd = [] ∧
    authorize hash (register hash id now [] req).snd req.email
      req.password = .err "No user found" := by
  obtain ⟨h5, hsnd⟩ :=
    register_valid_path_serverError hash id now [] req hreq hfmt hpw
      hrole rfl
  refine ⟨h5, hsnd, ?_⟩
  rw [hsnd]
  have hene : req.email ≠ "" := emailFormat_ne_empty req.email hfmt
  have hpne : req.password ≠ "" := by
    apply string_ne_empty_of_length; omega
  unfold authorize
  simp [hene, hpne, findOneByEmail]

theorem register_then_authenticate_fails_witness :
    (register exHash "1" 0 [] exReq).fst =
      .serverError "Internal server error during registration" ∧
    (register exHash "1" 0 [] exReq).snd = [] ∧
    authorize exHash (register exHash "1" 0 [] exReq).snd exReq.email
      exReq.password = .err "No user found" :=
  register_then_authenticate_fails exHash "1" 0 exReq (by decide)
    (by decide) (by decide) (by decide)

/-- C10 (divergence witness): the half of the claim about an invalid
role holds: a role present as a nonempty string outside the valid role
list is answered 400 with no user created.  The success half does not
hold: with the role omitted, or present as the empty string (which the
truthiness guard skips), an otherwise valid request does not create a
citizen user, because the save step fails on the required mobile path
and the route answers 500 with the collection unchanged. -/
theorem register_role_outcomes (hash : String → String) (id : String)
    (now : Nat) (db : List StoredUser) (req : RegisterRequest) :
    ((req.role = none ∨ req.role = some "") ∧ requiredMissing req = false ∧
        isEmailFormat req.email = true ∧ ¬ jsLength req.password < 6 ∧
        findOneByEmail db (jsToLower req.email) = none →
      (register hash id now db req).fst =
        .serverError "Internal server error during registration" ∧
      (register hash id now db req).snd = db) ∧
    (∀ r, req.role = some r → r ≠ "" → validRoles.contains r = false →
      statusCode (register hash id now db req).fst = 400 ∧
      (register hash id now db req).snd = db) := by
  constructor
  · rintro ⟨h0, hreq, hfmt, hpw, hnone⟩
    have hrole : roleInvalid req.role = false := by
      rcases h0 with h | h <;> rw [h] <;> rfl
    exact register_valid_path_serverError hash id now db req hreq hfmt
      hpw hrole hnone
  · intro r hr hrne hrcon
    have hrole : roleInvalid req.role = true := by
      have hmem : r ∉ validRoles := by simpa using hrcon
      rw [hr]; unfold roleInvalid; simp [hrne, hmem]
    unfold register
    by_cases h1 : requiredMissing req = true
    · simp [h1, statusCode]
    · rw [Bool.not_eq_true] at h1
      by_cases h2 : isEmailFormat req.email = true
      · by_cases h3 : jsLength req.password < 6
        · simp [h1, h2, h3, statusCode]
        · simp [h1, h2, h3, hrole, statusCode]
      · rw [Bool.not_eq_true] at h2
        simp [h1, h2, statusCode]

theorem register_role_outcomes_witness :
    ((register exHash "1" 0 [] exReq).fst =
        .serverError "Internal server error during registration" ∧
      (register exHash "1" 0 [] exReq).snd = []) ∧
    ((register exHash "1" 0 [] exReqEmptyRole).fst =
        .serverError "Internal server error during registration" ∧
      (register exHash "1" 0 [] exReqEmptyRole).snd = []) ∧
    (statusCode (register exHash "1" 0 [] exReqBadRole).fst = 400 ∧
      (register exHash "1" 0 [] exReqBadRole).snd = []) :=
  ⟨(register_role_outcomes exHash "1" 0 [] exReq).1
      ⟨Or.inl rfl, by decide, by decide, by decide, rfl⟩,
    (register_role_outcomes exHash "1" 0 [] exReqEmptyRole).1
      ⟨Or.inr rfl, by decide, by decide, by decide, rfl⟩,
    (register_role_outcomes exHash "1" 0 [] exReqBadRole).2
      "superhero" rfl (by decide) (by decide)⟩

/-- C1: every complaint accepted by `submit` for an authenticated
session is persisted with status pending and author equal to the
session user id, whatever author or status values the draft payload
carries. -/
theorem submit_sets_pending_and_author (s : Session)
    (draft : ComplaintDraft) (db : List Complaint) (c : Complaint)
    (h : (submit (some s) draft db).fst = .ok c) :
    c.status = "pending" ∧ c.author = s.userId ∧
    (submit (some s) draft db).snd = db ++ [c] := by
  by_cases hv : (draft.title = "" || draft.category = "" ||
      draft.description = "" || draft.address = "" ||
      draft.mobile = "") = true
  · unfold submit at h
    simp [hv] at h
  · rw [Bool.not_eq_true] at hv
    unfold submit at h ⊢
    simp only [hv, Bool.false_eq_true, if_false] at h ⊢
    obtain rfl := (SubmitResult.ok.injEq _ _).mp h.symm
    exact ⟨rfl, rfl, rfl⟩

/-- A draft whose payload claims a foreign author and a resolved
status. -/
def exDraft : ComplaintDraft :=
  { title := "Pothole", category := "pothole",
    description := "Large pothole", address := "1 Main St",
    mobile := "555-1000", priority := none, images := [],
    author := some "someone-else", status := some "resolved" }

theorem submit_sets_pending_and_author_witness :
    ∃ c, (submit (some exSession) exDraft []).fst = .ok c ∧
      c.status = "pending" ∧ c.author = exSession.userId :=
  ⟨{ title := "Pothole", category := "pothole",
      description := "Large pothole", address := "1 Main St",
      mobile := "555-1000", priority := "medium", images := [],
      status := "pending", author := "u1" },
    rfl,
    (submit_sets_pending_and_author exSession exDraft [] _ rfl).1,
    (submit_sets_pending_and_author exSession exDraft [] _ rfl).2.1⟩

end CityGuardian
